import Mathlib

/-!
Shallow embedding of the ECS lambda-alerts handler (`main.go`): data model,
string helpers, classifier, service filter and dispatcher, with theorems
checking the specification's claims against the code.
-/

set_option maxHeartbeats 1000000

/-- Environment-sourced configuration (`Config` in `main.go`). -/
structure Config where
  slackWebhookURL : String
  senderEmail : String
  recipientEmail : String
  awsRegion : String
  monitoredServices : List String

/-- `ECSDeplomentDetail` in `main.go` (sic). -/
structure ECSDeplomentDetail where
  eventName : String
  cluster : String
  service : String
  reason : String

/-- `ContainerInfo` in `main.go`. -/
structure ContainerInfo where
  name : String
  image : String
  exitCode : Int
  reason : String

/-- `ECSTaskDetail` in `main.go`. -/
structure ECSTaskDetail where
  clusterArn : String
  taskArn : String
  group : String
  lastStatus : String
  stoppedReason : String
  containers : List ContainerInfo

/-- The opaque `event.Detail` JSON payload, abstracted by the (deterministic)
results of the two `json.Unmarshal` attempts the handler can make on it. -/
structure RawDetail where
  decodeDeployment : Except String ECSDeplomentDetail
  decodeTask : Except String ECSTaskDetail

/-- The inbound envelope (`events.CloudWatchEvent`): discriminator plus payload. -/
structure CloudWatchEvent where
  detailType : String
  detail : RawDetail

/-- Go `strings.Split` on a single-character separator, on character lists:
always returns at least one (possibly empty) segment. -/
def splitChar (sep : Char) : List Char → List (List Char)
  | [] => [[]]
  | c :: t =>
    if c == sep then [] :: splitChar sep t
    else
      match splitChar sep t with
      | [] => [[c]]
      | h :: r => (c :: h) :: r

/-- Go `strings.Split(s, sep)` for a one-character `sep`, as strings. -/
def goSplit (s : String) (sep : Char) : List String :=
  (splitChar sep s.data).map String.mk

/-- Whether `sub` occurs at the head of `l`. -/
def isPre : List Char → List Char → Bool
  | [], _ => true
  | _ :: _, [] => false
  | a :: as, b :: bs => a == b && isPre as bs

/-- Whether `sub` occurs anywhere in `l`. -/
def hasSub (sub : List Char) : List Char → Bool
  | [] => isPre sub []
  | c :: t => isPre sub (c :: t) || hasSub sub t

/-- Go `strings.Contains(s, sub)`. -/
def goContains (s sub : String) : Bool :=
  hasSub sub.data s.data

/-- `getResourceName` in `main.go`: split on `/` and take the final segment. -/
def getResourceName (arn : String) : String :=
  let parts := goSplit arn '/'
  if parts.length > 0 then parts.getD (parts.length - 1) arn else arn

/-- `getServiceNameFromGroup` in `main.go`: split `group` on `:`; use the second
segment when present, otherwise a literal fallback. -/
def getServiceNameFromGroup (group : String) : String :=
  let parts := goSplit group ':'
  if parts.length > 1 then parts.getD 1 "" else "Unknown (Task run manually?)"

/-- One step of the container walk in the task branch of `handleRequest`:
accumulates (failedContainerFound, failureDetails). -/
def containerStep (acc : Bool × String) (c : ContainerInfo) : Bool × String :=
  if c.exitCode != 0 then
    (true, acc.2 ++ "- Container '" ++ c.name ++ "' exited with code " ++
      toString c.exitCode ++ " (" ++ c.reason ++ ")\n")
  else acc

/-- The failure-accumulation block of the task branch of `handleRequest`:
the container walk followed by the stopped-reason check, computing the pair
(failedContainerFound, failureDetails). -/
def taskFailureWalk (detail : ECSTaskDetail) : Bool × String :=
  let walk := detail.containers.foldl containerStep (false, "")
  if !walk.1 && detail.stoppedReason != "" &&
      detail.stoppedReason != "Scaling activity initiated by (deployment ...)" then
    if !(goContains detail.stoppedReason "Scaling activity") &&
        !(goContains detail.stoppedReason "Service scheduler") then
      (true, walk.2 ++ "- Task stopped: " ++ detail.stoppedReason ++ "\n")
    else walk
  else walk

/-- The `"ECS Task State Change"` branch of `handleRequest`: returns
(isAlert, subject, message). -/
def classifyTask (detail : ECSTaskDetail) : Bool × String × String :=
  let serviceName := getServiceNameFromGroup detail.group
  if detail.lastStatus == "STOPPED" then
    let fd := taskFailureWalk detail
    if fd.1 then
      (true, "⚠️ ECS Task Failure: " ++ serviceName,
        "*Service:* " ++ serviceName ++ "\n*Task ARN:* " ++ detail.taskArn ++
          "\n*Failure Details:*\n" ++ fd.2)
    else (false, "", "")
  else (false, "", "")

/-- The `"ECS Deployment State Change"` branch of `handleRequest`: returns
(isAlert, subject, message). -/
def classifyDeployment (d : ECSDeplomentDetail) : Bool × String × String :=
  let message := "ECS Deployment Event: " ++ d.eventName ++ "\nCluster: " ++
    d.cluster ++ "\nService: " ++ d.service ++ "\nReason: " ++ d.reason
  let subject := "ECS Deployment Alert"
  if d.eventName == "SERVICE_DEPLOYMENT_FAILED" then
    (true, "ECS Service Rollback/Failure: " ++ getResourceName d.service,
      "*Service:* " ++ getResourceName d.service ++ "\n*Event:* " ++ d.eventName ++
        "\n*Reason:* " ++ d.reason ++ "\n*Cluster:* " ++ getResourceName d.cluster)
  else (true, subject, message)

/-- The `switch event.DetailType` of `handleRequest`: either a decode error
(which aborts the invocation) or (isAlert, subject, message). -/
def classifyEvent (ev : CloudWatchEvent) : Except String (Bool × String × String) :=
  if ev.detailType == "ECS Deployment State Change" then
    match ev.detail.decodeDeployment with
    | .error e => .error e
    | .ok d => .ok (classifyDeployment d)
  else if ev.detailType == "ECS Task State Change" then
    match ev.detail.decodeTask with
    | .error e => .error ("failed to unmarshal task detail: " ++ e)
    | .ok d => .ok (classifyTask d)
  else .ok (false, "", "")

/-- The second decode in `handleRequest` that resolves `serviceName` for the
allowlist filter (empty string when the decode fails or the category is unknown). -/
def resolveServiceName (ev : CloudWatchEvent) : String :=
  if ev.detailType == "ECS Task State Change" then
    match ev.detail.decodeTask with
    | .ok d => getServiceNameFromGroup d.group
    | .error _ => ""
  else if ev.detailType == "ECS Deployment State Change" then
    match ev.detail.decodeDeployment with
    | .ok d => getResourceName d.service
    | .error _ => ""
  else ""

/-- `contains` in `main.go`: linear scan for an exact string match. -/
def contains (slice : List String) (item : String) : Bool :=
  slice.any (fun s => s == item)

/-- The outcome of the `http.Post` to the Slack webhook: either a transport
error or a response with a status code and status line. -/
inductive HTTPOutcome where
  | response (statusCode : Nat) (status : String)
  | netError (msg : String)

/-- `sendSlackNotification` in `main.go`, with the HTTP call abstracted by its
outcome: skip when no webhook URL is configured; error on transport failure;
error on any status code other than 200. -/
def sendSlackNotification (c : Config) (text : String) (post : HTTPOutcome) :
    Except String Unit :=
  if c.slackWebhookURL == "" then .ok ()
  else
    match post with
    | .netError m => .error ("failed to send Slack notification: " ++ m)
    | .response code status =>
      if code != 200 then .error ("received non-200 response from Slack: " ++ status)
      else if 400 ≤ code then .error ("Slack API error: " ++ status)
      else .ok ()

/-- `sendEmail` in `main.go`, with the SES call abstracted by its outcome:
skip when sender or recipient is unset, otherwise return the provider result. -/
def sendEmail (c : Config) (subject body : String) (provider : Except String Unit) :
    Except String Unit :=
  if c.senderEmail == "" || c.recipientEmail == "" then .ok ()
  else provider

/-- The error component of a channel send, as `handleRequest` logs it. -/
def errOf : Except String Unit → Option String
  | .error e => some e
  | .ok _ => none

/-- Observable outcome of one invocation of `handleRequest`: the returned
error value, and which channel sends were attempted and with what logged error. -/
structure InvocationResult where
  result : Except String Unit
  slackAttempted : Bool
  slackError : Option String
  emailAttempted : Bool
  emailError : Option String

/-- `handleRequest` in `main.go`: classify, resolve the service name, apply the
allowlist filter, then dispatch to both channels independently when alerting.
`slackHTTP` and `emailProvider` abstract the two outbound calls' outcomes. -/
def handleRequest (c : Config) (ev : CloudWatchEvent)
    (slackHTTP : HTTPOutcome) (emailProvider : Except String Unit) : InvocationResult :=
  match classifyEvent ev with
  | .error e =>
    { result := .error e, slackAttempted := false, slackError := none,
      emailAttempted := false, emailError := none }
  | .ok (isAlert, subject, message) =>
    let serviceName := resolveServiceName ev
    if c.monitoredServices.length > 0 && !(contains c.monitoredServices serviceName) then
      { result := .ok (), slackAttempted := false, slackError := none,
        emailAttempted := false, emailError := none }
    else if isAlert then
      { result := .ok (),
        slackAttempted := true,
        slackError := errOf (sendSlackNotification c message slackHTTP),
        emailAttempted := true,
        emailError := errOf (sendEmail c subject message emailProvider) }
    else
      { result := .ok (), slackAttempted := false, slackError := none,
        emailAttempted := false, emailError := none }

/-- The pass/skip decision of the service filter in `handleRequest`. -/
def serviceFilterPasses (c : Config) (serviceName : String) : Bool :=
  !(c.monitoredServices.length > 0 && !(contains c.monitoredServices serviceName))

/-! Concrete records used in counterexamples and witnesses. -/

/-- A sample configuration (all channels configured, empty allowlist). -/
def sampleConfig : Config :=
  { slackWebhookURL := "https://hooks.slack.example/T000/B000"
    senderEmail := "alerts@example.com"
    recipientEmail := "oncall@example.com"
    awsRegion := "us-east-1"
    monitoredServices := [] }

/-- A stopped task whose container exited non-zero (spec Scenario B). -/
def stoppedTaskDetail : ECSTaskDetail :=
  { clusterArn := "arn:aws:ecs:us-east-1:123:cluster/prod"
    taskArn := "arn:aws:ecs:us-east-1:123:task/abc123"
    group := "service:checkout-svc"
    lastStatus := "STOPPED"
    stoppedReason := ""
    containers := [{ name := "app", image := "repo/app:1", exitCode := 137, reason := "OOMKilled" }] }

/-- A task with a failed container whose `lastStatus` is not `"STOPPED"`. -/
def runningTaskDetail : ECSTaskDetail :=
  { clusterArn := "arn:aws:ecs:us-east-1:123:cluster/prod"
    taskArn := "arn:aws:ecs:us-east-1:123:task/def456"
    group := "service:checkout-svc"
    lastStatus := "RUNNING"
    stoppedReason := ""
    containers := [{ name := "app", image := "repo/app:1", exitCode := 1, reason := "error" }] }

/-- A stopped task launched manually: its `group` contains no `:`. -/
def manualTaskDetail : ECSTaskDetail :=
  { clusterArn := "arn:aws:ecs:us-east-1:123:cluster/prod"
    taskArn := "arn:aws:ecs:us-east-1:123:task/xyz789"
    group := "manual"
    lastStatus := "STOPPED"
    stoppedReason := ""
    containers := [{ name := "job", image := "repo/job:1", exitCode := 2, reason := "boom" }] }

/-- A failed deployment (spec Scenario A). -/
def failedDeploymentDetail : ECSDeplomentDetail :=
  { eventName := "SERVICE_DEPLOYMENT_FAILED"
    cluster := "arn:aws:ecs:us-east-1:123:cluster/prod"
    service := "arn:aws:ecs:us-east-1:123:service/checkout-svc"
    reason := "circuit breaker"
    }

/-- A deployment event whose `eventName` is not the failure code. -/
def completedDeploymentDetail : ECSDeplomentDetail :=
  { eventName := "SERVICE_DEPLOYMENT_COMPLETED"
    cluster := "arn:aws:ecs:us-east-1:123:cluster/prod"
    service := "arn:aws:ecs:us-east-1:123:service/checkout-svc"
    reason := "deployment completed"
    }

/-- An envelope carrying a task payload that decodes successfully. -/
def taskEvent (d : ECSTaskDetail) : CloudWatchEvent :=
  { detailType := "ECS Task State Change"
    detail :=
      { decodeDeployment := .error "json: cannot unmarshal task payload as deployment"
        decodeTask := .ok d } }

/-- An envelope carrying a deployment payload that decodes successfully. -/
def deploymentEvent (d : ECSDeplomentDetail) : CloudWatchEvent :=
  { detailType := "ECS Deployment State Change"
    detail :=
      { decodeDeployment := .ok d
        decodeTask := .error "json: cannot unmarshal deployment payload as task" } }

/-- An envelope with an unrecognized category. -/
def unknownEvent : CloudWatchEvent :=
  { detailType := "EC2 Instance State-change Notification"
    detail :=
      { decodeDeployment := .error "json: cannot unmarshal"
        decodeTask := .error "json: cannot unmarshal" } }

/-- A task-category envelope whose payload fails to decode. -/
def badTaskEvent : CloudWatchEvent :=
  { detailType := "ECS Task State Change"
    detail :=
      { decodeDeployment := .error "json: cannot unmarshal"
        decodeTask := .error "json: cannot unmarshal number into Go struct field" } }

/-- A deployment-category envelope whose payload fails to decode. -/
def badDeploymentEvent : CloudWatchEvent :=
  { detailType := "ECS Deployment State Change"
    detail :=
      { decodeDeployment := .error "json: cannot unmarshal string into Go struct field"
        decodeTask := .error "json: cannot unmarshal" } }

/-- A configuration whose allowlist contains only `"checkout-svc"`. -/
def allowCfg : Config :=
  { sampleConfig with monitoredServices := ["checkout-svc"] }

/-- A configuration whose allowlist contains only the manual-task fallback. -/
def manualCfg : Config :=
  { sampleConfig with monitoredServices := ["Unknown (Task run manually?)"] }

/-- A configuration whose allowlist contains only the empty identifier. -/
def emptyIdCfg : Config :=
  { sampleConfig with monitoredServices := [""] }

/-- A failed deployment of a service outside `allowCfg`'s allowlist. -/
def billingDeploymentDetail : ECSDeplomentDetail :=
  { eventName := "SERVICE_DEPLOYMENT_FAILED"
    cluster := "arn:aws:ecs:us-east-1:123:cluster/prod"
    service := "arn:aws:ecs:us-east-1:123:service/billing-svc"
    reason := "circuit breaker"
    }

/-! Helper lemmas about the string machinery and the container walk. -/

theorem splitChar_cons (sep c : Char) (t : List Char) :
    splitChar sep (c :: t) =
      if c == sep then [] :: splitChar sep t
      else
        match splitChar sep t with
        | [] => [[c]]
        | h :: r => (c :: h) :: r := rfl

theorem splitChar_ne_nil (sep : Char) (l : List Char) : splitChar sep l ≠ [] := by
  cases l with
  | nil => simp [splitChar]
  | cons c t =>
    simp only [splitChar]
    split
    · exact List.cons_ne_nil _ _
    · split <;> exact List.cons_ne_nil _ _

theorem splitChar_of_not_mem (sep : Char) (l : List Char) (h : sep ∉ l) :
    splitChar sep l = [l] := by
  induction l with
  | nil => simp [splitChar]
  | cons c t ih =>
    simp only [List.mem_cons, not_or] at h
    have hc : ¬((c == sep) = true) := by
      simp only [beq_iff_eq]
      exact fun e => h.1 e.symm
    rw [splitChar, if_neg hc, ih h.2]

theorem getD_last {α : Type} (l : List α) (x d : α)
    (h : l.getLast? = some x) : l.getD (l.length - 1) d = x := by
  induction l with
  | nil => simp at h
  | cons a t ih =>
    cases t with
    | nil =>
      simp at h
      simp [h]
    | cons b u =>
      rw [List.getLast?_cons_cons] at h
      have h2 := ih h
      simpa using h2

theorem splitChar_eq_single_nil (sep : Char) (l : List Char)
    (h : splitChar sep l = [[]]) : l = [] := by
  cases l with
  | nil => rfl
  | cons c t =>
    exfalso
    simp only [splitChar] at h
    by_cases hc : (c == sep) = true
    · rw [if_pos hc] at h
      simp at h
      exact splitChar_ne_nil sep t h
    · rw [if_neg hc] at h
      cases h' : splitChar sep t with
      | nil => rw [h'] at h; simp at h
      | cons a r => rw [h'] at h; simp at h

theorem splitChar_getLast_of_sep (sep : Char) (l : List Char)
    (h : l.getLast? = some sep) : (splitChar sep l).getLast? = some [] := by
  induction l with
  | nil => simp at h
  | cons c t ih =>
    cases t with
    | nil =>
      simp at h
      subst h
      simp [splitChar]
    | cons b u =>
      rw [List.getLast?_cons_cons] at h
      have ih2 := ih h
      by_cases hc : (c == sep) = true
      · rw [splitChar_cons, if_pos hc]
        cases h' : splitChar sep (b :: u) with
        | nil => exact absurd h' (splitChar_ne_nil sep (b :: u))
        | cons a r =>
          rw [h'] at ih2
          rw [List.getLast?_cons_cons]
          exact ih2
      · rw [splitChar_cons, if_neg hc]
        cases h' : splitChar sep (b :: u) with
        | nil => exact absurd h' (splitChar_ne_nil sep (b :: u))
        | cons a r =>
          rw [h'] at ih2
          cases r with
          | nil =>
            simp at ih2
            subst ih2
            exact absurd (splitChar_eq_single_nil sep (b :: u) h') (by simp)
          | cons a2 r2 =>
            show ((c :: a) :: a2 :: r2).getLast? = some []
            rw [List.getLast?_cons_cons]
            rw [List.getLast?_cons_cons] at ih2
            exact ih2

theorem containerWalk_fst (cs : List ContainerInfo) (b : Bool) (s : String) :
    (cs.foldl containerStep (b, s)).1 = (b || cs.any fun c => c.exitCode != 0) := by
  induction cs generalizing b s with
  | nil => simp
  | cons c t ih =>
    simp only [List.foldl_cons, List.any_cons, containerStep]
    split
    · rw [ih]; simp_all
    · rw [ih]; simp_all

theorem scaling_literal_contains :
    goContains "Scaling activity initiated by (deployment ...)" "Scaling activity" = true := by
  decide

theorem taskFailureWalk_fst (d : ECSTaskDetail) :
    (taskFailureWalk d).1 = true ↔
      ((d.containers.any fun c => c.exitCode != 0) = true ∨
        (d.stoppedReason ≠ "" ∧
          goContains d.stoppedReason "Scaling activity" = false ∧
          goContains d.stoppedReason "Service scheduler" = false)) := by
  have hw : (d.containers.foldl containerStep (false, "")).1 =
      (d.containers.any fun c => c.exitCode != 0) :=
    (containerWalk_fst d.containers false "").trans (Bool.false_or _)
  cases hA : (d.containers.any fun c => c.exitCode != 0) with
  | true =>
    rw [hA] at hw
    have he : taskFailureWalk d = d.containers.foldl containerStep (false, "") := by
      unfold taskFailureWalk
      simp [hw]
    rw [he, hw]
    simp
  | false =>
    rw [hA] at hw
    by_cases hr : d.stoppedReason = ""
    · have he : taskFailureWalk d = d.containers.foldl containerStep (false, "") := by
        unfold taskFailureWalk
        simp [hr]
      rw [he, hw]
      simp [hr]
    · by_cases hx : d.stoppedReason = "Scaling activity initiated by (deployment ...)"
      · have hc1 : goContains d.stoppedReason "Scaling activity" = true := by
          rw [hx]; exact scaling_literal_contains
        have he : taskFailureWalk d = d.containers.foldl containerStep (false, "") := by
          unfold taskFailureWalk
          simp [hx]
        rw [he, hw]
        simp [hc1]
      · by_cases hc : (!(goContains d.stoppedReason "Scaling activity") &&
            !(goContains d.stoppedReason "Service scheduler")) = true
        · have he : (taskFailureWalk d).1 = true := by
            unfold taskFailureWalk
            simp [hw, hr, hx, hc]
          rw [he]
          simp only [Bool.and_eq_true, Bool.not_eq_true'] at hc
          simp [hr, hc.1, hc.2]
        · have he : taskFailureWalk d = d.containers.foldl containerStep (false, "") := by
            unfold taskFailureWalk
            simp [hw, hr, hx, hc]
          rw [he, hw]
          simp only [Bool.and_eq_true, Bool.not_eq_true'] at hc
          push_neg at hc
          constructor
          · intro h; exact absurd h (by simp)
          · rintro (h | ⟨h1, h2, h3⟩)
            · simp at h
            · exact absurd (hc h2) (by simp [h3])

theorem contains_iff_mem (l : List String) (x : String) :
    contains l x = true ↔ x ∈ l := by
  unfold contains
  simp [List.any_eq_true]

/-- C1 (counterexample): `runningTaskDetail` has a container with a non-zero
exit code, so the claimed condition holds, yet the classifier does not alert,
because its `lastStatus` is `"RUNNING"`, not `"STOPPED"`. -/
theorem C1_counterexample :
    ((runningTaskDetail.containers.any fun c => c.exitCode != 0) = true ∨
      (runningTaskDetail.stoppedReason ≠ "" ∧
        goContains runningTaskDetail.stoppedReason "Scaling activity" = false ∧
        goContains runningTaskDetail.stoppedReason "Service scheduler" = false)) ∧
    (classifyTask runningTaskDetail).1 = false :=
  ⟨Or.inl (by decide), by decide⟩

/-- C1 (amended): for every Task detail record, the classifier sets
isAlert = true iff `lastStatus` is `"STOPPED"` and (at least one container has
a non-zero exitCode, or stoppedReason is non-empty and does not contain either
of the benign substrings "Scaling activity" or "Service scheduler"). -/
theorem C1_task_alert_iff (d : ECSTaskDetail) :
    (classifyTask d).1 = true ↔
      (d.lastStatus = "STOPPED" ∧
        ((d.containers.any fun c => c.exitCode != 0) = true ∨
          (d.stoppedReason ≠ "" ∧
            goContains d.stoppedReason "Scaling activity" = false ∧
            goContains d.stoppedReason "Service scheduler" = false))) := by
  by_cases hs : d.lastStatus = "STOPPED"
  · have h1 : (classifyTask d).1 = (taskFailureWalk d).1 := by
      simp only [classifyTask]
      rw [if_pos (by simp [hs])]
      cases hf : (taskFailureWalk d).1 <;> simp [hf]
    rw [h1, taskFailureWalk_fst]
    simp [hs]
  · have h1 : (classifyTask d).1 = false := by
      simp only [classifyTask]
      rw [if_neg (by simp [hs])]
    simp [h1, hs]

/-- C2 (counterexample): for `completedDeploymentDetail`, whose eventName is
not "SERVICE_DEPLOYMENT_FAILED", the classifier produces the generic subject
"ECS Deployment Alert", not the "ECS Service Rollback/Failure: ..." subject the
claim predicts regardless of eventName. -/
theorem C2_counterexample :
    (classifyDeployment completedDeploymentDetail).2.1 = "ECS Deployment Alert" ∧
    (classifyDeployment completedDeploymentDetail).2.1 ≠
      "ECS Service Rollback/Failure: " ++
        getResourceName completedDeploymentDetail.service :=
  ⟨by decide, by decide⟩

/-- C2 (amended): for every Deployment detail record the classifier sets
isAlert = true regardless of eventName; the subject "ECS Service
Rollback/Failure: " followed by the last path segment of the service reference,
and the body with the resolved service name, event name, reason and resolved
cluster name, are produced exactly when eventName = "SERVICE_DEPLOYMENT_FAILED",
the subject being the generic "ECS Deployment Alert" otherwise. -/
theorem C2_deployment_classification (d : ECSDeplomentDetail) :
    (classifyDeployment d).1 = true ∧
    (d.eventName = "SERVICE_DEPLOYMENT_FAILED" →
      (classifyDeployment d).2.1 =
        "ECS Service Rollback/Failure: " ++ getResourceName d.service ∧
      (classifyDeployment d).2.2 =
        "*Service:* " ++ getResourceName d.service ++ "\n*Event:* " ++ d.eventName ++
          "\n*Reason:* " ++ d.reason ++ "\n*Cluster:* " ++ getResourceName d.cluster) ∧
    (d.eventName ≠ "SERVICE_DEPLOYMENT_FAILED" →
      (classifyDeployment d).2.1 = "ECS Deployment Alert") := by
  refine ⟨?_, ?_, ?_⟩
  · simp only [classifyDeployment]
    split <;> rfl
  · intro h
    simp only [classifyDeployment]
    rw [if_pos (by simp [h])]
    exact ⟨rfl, rfl⟩
  · intro h
    simp only [classifyDeployment]
    rw [if_neg (by simp [h])]

/-- C2 (witness): the amended theorem applied to `failedDeploymentDetail`
(the spec's Scenario A). -/
theorem C2_witness :
    (classifyDeployment failedDeploymentDetail).1 = true ∧
    (classifyDeployment failedDeploymentDetail).2.1 =
      "ECS Service Rollback/Failure: checkout-svc" :=
  ⟨(C2_deployment_classification failedDeploymentDetail).1,
    (((C2_deployment_classification failedDeploymentDetail).2.1 (by decide)).1).trans
      (by decide)⟩

/-- C3 (counterexample): with a configured webhook URL, an HTTP 204 response —
which is in the 2xx range — is reported as a channel-level delivery error,
refuting "successful exactly when the status is 2xx". -/
theorem C3_counterexample :
    (200 ≤ 204 ∧ 204 < 300) ∧
    sendSlackNotification sampleConfig "msg" (.response 204 "204 No Content") =
      .error ("received non-200 response from Slack: " ++ "204 No Content") :=
  ⟨by decide, rfl⟩

/-- C3 (amended): with a configured webhook URL and an HTTP response received,
the delivery is treated as successful exactly when the response status is 200;
every non-200 status (other 2xx codes included) is reported as a channel-level
delivery error. -/
theorem C3_slack_success_iff (c : Config) (code : Nat) (status : String)
    (h : c.slackWebhookURL ≠ "") :
    sendSlackNotification c "msg" (.response code status) = .ok () ↔ code = 200 := by
  by_cases hc : code = 200
  · subst hc
    simp [sendSlackNotification, h]
  · simp [sendSlackNotification, h, hc]

/-- C3 (witness): the amended theorem applied to `sampleConfig` and a 200
response. -/
theorem C3_witness :
    sampleConfig.slackWebhookURL ≠ "" ∧
    sendSlackNotification sampleConfig "msg" (.response 200 "200 OK") = .ok () :=
  ⟨by decide, (C3_slack_success_iff sampleConfig 200 "200 OK" (by decide)).mpr rfl⟩

/-- C4: channel outcomes are isolated: which channels are attempted and the
invocation's returned value do not depend on either channel's delivery
outcome, and whenever the chat channel is attempted the invocation returns
success and the email channel is attempted as well. -/
theorem C4_channel_isolation (c : Config) (ev : CloudWatchEvent)
    (p1 p2 : HTTPOutcome) (e1 e2 : Except String Unit) :
    (handleRequest c ev p1 e1).slackAttempted = (handleRequest c ev p2 e2).slackAttempted ∧
    (handleRequest c ev p1 e1).emailAttempted = (handleRequest c ev p2 e2).emailAttempted ∧
    (handleRequest c ev p1 e1).result = (handleRequest c ev p2 e2).result ∧
    ((handleRequest c ev p1 e1).slackAttempted = true →
      (handleRequest c ev p1 e1).result = .ok () ∧
      (handleRequest c ev p1 e1).emailAttempted = true) := by
  unfold handleRequest
  cases hce : classifyEvent ev with
  | error e => simp
  | ok t =>
    obtain ⟨isAlert, subject, message⟩ := t
    by_cases hf : (decide (c.monitoredServices.length > 0) &&
        !(contains c.monitoredServices (resolveServiceName ev))) = true
    · simp [hf]
    · cases isAlert <;> simp [hf]

/-- C4 (witness): both channel sends fail (transport error on the webhook,
provider error on email), yet the email channel is attempted and the
invocation returns success. -/
theorem C4_witness :
    (handleRequest sampleConfig (taskEvent stoppedTaskDetail)
        (.netError "connection refused") (.error "SES throttled")).result =
      .ok () ∧
    (handleRequest sampleConfig (taskEvent stoppedTaskDetail)
        (.netError "connection refused") (.error "SES throttled")).emailAttempted =
      true :=
  have h := (C4_channel_isolation sampleConfig (taskEvent stoppedTaskDetail)
    (.netError "connection refused") (.response 200 "200 OK")
    (.error "SES throttled") (.ok ())).2.2.2 (by decide)
  ⟨h.1, h.2⟩

/-- C5: when the category is one of the two recognized ones and decoding the
detail payload fails, the invocation returns the decode error (the task branch
wraps it with the Go format prefix) and neither channel is attempted. -/
theorem C5_malformed_payload (c : Config) (ev : CloudWatchEvent)
    (p : HTTPOutcome) (e : Except String Unit) (m : String) :
    (ev.detailType = "ECS Deployment State Change" →
      ev.detail.decodeDeployment = .error m →
      handleRequest c ev p e =
        { result := .error m, slackAttempted := false, slackError := none,
          emailAttempted := false, emailError := none }) ∧
    (ev.detailType = "ECS Task State Change" →
      ev.detail.decodeTask = .error m →
      handleRequest c ev p e =
        { result := .error ("failed to unmarshal task detail: " ++ m),
          slackAttempted := false, slackError := none,
          emailAttempted := false, emailError := none }) := by
  constructor
  · intro h1 h2
    unfold handleRequest classifyEvent
    simp [h1, h2]
  · intro h1 h2
    unfold handleRequest classifyEvent
    simp [h1, h2]

/-- C5 (witness): the theorem applied to `badTaskEvent`, whose payload does
not decode as a task detail. -/
theorem C5_witness :
    handleRequest sampleConfig badTaskEvent (.response 200 "200 OK") (.ok ()) =
      { result := .error ("failed to unmarshal task detail: " ++
          "json: cannot unmarshal number into Go struct field"),
        slackAttempted := false, slackError := none,
        emailAttempted := false, emailError := none } :=
  (C5_malformed_payload sampleConfig badTaskEvent (.response 200 "200 OK") (.ok ())
      "json: cannot unmarshal number into Go struct field").2 rfl rfl

/-- C6: an empty allowlist always passes the service filter; a non-empty one
passes iff the resolved identifier is an exact (case-sensitive) member; and a
skipped event (classification succeeded but the filter failed) returns success
with neither channel attempted. -/
theorem C6_allowlist_filter (c : Config) (ev : CloudWatchEvent)
    (p : HTTPOutcome) (e : Except String Unit) :
    (c.monitoredServices = [] → serviceFilterPasses c (resolveServiceName ev) = true) ∧
    (c.monitoredServices ≠ [] →
      (serviceFilterPasses c (resolveServiceName ev) = true ↔
        resolveServiceName ev ∈ c.monitoredServices)) ∧
    (serviceFilterPasses c (resolveServiceName ev) = false →
      (∃ r, classifyEvent ev = .ok r) →
      handleRequest c ev p e =
        { result := .ok (), slackAttempted := false, slackError := none,
          emailAttempted := false, emailError := none }) := by
  refine ⟨?_, ?_, ?_⟩
  · intro h
    simp [serviceFilterPasses, h]
  · intro h
    have hl : 0 < c.monitoredServices.length := List.length_pos.mpr h
    simp [serviceFilterPasses, hl, contains_iff_mem]
  · intro hskip hcls
    obtain ⟨r, hr⟩ := hcls
    obtain ⟨isAlert, subject, message⟩ := r
    have hcond : (decide (c.monitoredServices.length > 0) &&
        !(contains c.monitoredServices (resolveServiceName ev))) = true := by
      have h2 := hskip
      unfold serviceFilterPasses at h2
      simpa using h2
    unfold handleRequest
    rw [hr]
    simp [hcond]

/-- C6 (witness): the spec's Scenario D: allowlist `["checkout-svc"]`, a
deployment event resolving to `"billing-svc"` is skipped with success and no
dispatch. -/
theorem C6_witness :
    handleRequest allowCfg (deploymentEvent billingDeploymentDetail)
        (.response 200 "200 OK") (.ok ()) =
      { result := .ok (), slackAttempted := false, slackError := none,
        emailAttempted := false, emailError := none } :=
  (C6_allowlist_filter allowCfg (deploymentEvent billingDeploymentDetail)
      (.response 200 "200 OK") (.ok ())).2.2 (by decide)
    ⟨classifyDeployment billingDeploymentDetail, rfl⟩

/-- C7: an envelope whose category is neither recognized discriminator returns
success with neither channel attempted, whatever the payload holds. -/
theorem C7_unknown_category (c : Config) (ev : CloudWatchEvent)
    (p : HTTPOutcome) (e : Except String Unit)
    (h1 : ev.detailType ≠ "ECS Deployment State Change")
    (h2 : ev.detailType ≠ "ECS Task State Change") :
    handleRequest c ev p e =
      { result := .ok (), slackAttempted := false, slackError := none,
        emailAttempted := false, emailError := none } := by
  have hce : classifyEvent ev = .ok (false, "", "") := by
    unfold classifyEvent
    rw [if_neg (by simp [h1]), if_neg (by simp [h2])]
  unfold handleRequest
  rw [hce]
  by_cases hf : (decide (c.monitoredServices.length > 0) &&
      !(contains c.monitoredServices (resolveServiceName ev))) = true <;>
    simp [hf]

/-- C7 (witness): the theorem applied to `unknownEvent`. -/
theorem C7_witness :
    handleRequest sampleConfig unknownEvent (.response 200 "200 OK") (.ok ()) =
      { result := .ok (), slackAttempted := false, slackError := none,
        emailAttempted := false, emailError := none } :=
  C7_unknown_category sampleConfig unknownEvent (.response 200 "200 OK") (.ok ())
    (by decide) (by decide)

/-- C8: `getResourceName` returns the final segment after splitting on "/"
(the last element of the Go split), a string containing no "/" is returned
unchanged, and the spec's two concrete examples evaluate as claimed. -/
theorem C8_getResourceName (s : String) :
    (goSplit s '/').getLast? = some (getResourceName s) ∧
    ('/' ∉ s.data → getResourceName s = s) ∧
    getResourceName "arn:aws:ecs:us-east-1:123:service/my-service" = "my-service" ∧
    getResourceName "no-slash-value" = "no-slash-value" := by
  have hne : goSplit s '/' ≠ [] := by
    unfold goSplit
    simp [splitChar_ne_nil]
  obtain ⟨y, hy⟩ : ∃ y, (goSplit s '/').getLast? = some y := by
    cases h : (goSplit s '/').getLast? with
    | none =>
      rw [List.getLast?_eq_none_iff] at h
      exact absurd h hne
    | some y => exact ⟨y, rfl⟩
  have hgr : getResourceName s = y := by
    unfold getResourceName
    rw [if_pos (List.length_pos.mpr hne)]
    exact getD_last _ y s hy
  refine ⟨hgr ▸ hy, ?_, by decide, by decide⟩
  intro h
  unfold getResourceName goSplit
  rw [splitChar_of_not_mem '/' s.data h]
  simp

/-- C8 (witness): the theorem applied to the no-slash example, its hypothesis
discharged by evaluation. -/
theorem C8_witness :
    getResourceName "no-slash-value" = "no-slash-value" :=
  (C8_getResourceName "no-slash-value").2.1 (by decide)

/-- C9: a task whose group contains no ":" resolves to the literal fallback
"Unknown (Task run manually?)", and when the allowlist is non-empty an
alerting such task is dispatched (both channels attempted) iff that literal is
a member of the allowlist. -/
theorem C9_manual_task_filtering (c : Config) (ev : CloudWatchEvent)
    (d : ECSTaskDetail) (p : HTTPOutcome) (e : Except String Unit)
    (hdt : ev.detailType = "ECS Task State Change")
    (hdec : ev.detail.decodeTask = .ok d)
    (hg : ':' ∉ d.group.data)
    (halert : (classifyTask d).1 = true)
    (hne : c.monitoredServices ≠ []) :
    getServiceNameFromGroup d.group = "Unknown (Task run manually?)" ∧
    ((handleRequest c ev p e).slackAttempted = true ↔
      "Unknown (Task run manually?)" ∈ c.monitoredServices) ∧
    ((handleRequest c ev p e).emailAttempted = true ↔
      "Unknown (Task run manually?)" ∈ c.monitoredServices) := by
  have hsvc : getServiceNameFromGroup d.group = "Unknown (Task run manually?)" := by
    unfold getServiceNameFromGroup goSplit
    rw [splitChar_of_not_mem ':' d.group.data hg]
    simp
  have hrs : resolveServiceName ev = "Unknown (Task run manually?)" := by
    unfold resolveServiceName
    rw [if_pos (by simp [hdt]), hdec]
    exact hsvc
  have hce : classifyEvent ev = .ok (classifyTask d) := by
    unfold classifyEvent
    rw [if_neg (by rw [hdt]; decide), if_pos (by simp [hdt]), hdec]
  have hl : (decide (c.monitoredServices.length > 0)) = true :=
    decide_eq_true (List.length_pos.mpr hne)
  refine ⟨hsvc, ?_⟩
  have hkey : (handleRequest c ev p e).slackAttempted =
        contains c.monitoredServices "Unknown (Task run manually?)" ∧
      (handleRequest c ev p e).emailAttempted =
        contains c.monitoredServices "Unknown (Task run manually?)" := by
    unfold handleRequest
    rw [hce]
    cases hc : contains c.monitoredServices "Unknown (Task run manually?)" with
    | true => simp [hrs, hl, hc, halert]
    | false => simp [hrs, hl, hc, halert]
  rw [hkey.1, hkey.2]
  exact ⟨contains_iff_mem _ _, contains_iff_mem _ _⟩

/-- C9 (witness): with allowlist `["Unknown (Task run manually?)"]`, a failed
manually-run task (group `"manual"`) is dispatched to the chat channel. -/
theorem C9_witness :
    (handleRequest manualCfg (taskEvent manualTaskDetail)
        (.response 200 "200 OK") (.ok ())).slackAttempted = true :=
  ((C9_manual_task_filtering manualCfg (taskEvent manualTaskDetail)
      manualTaskDetail (.response 200 "200 OK") (.ok ())
      rfl rfl (by decide) (by decide) (by decide)).2.1).mpr (by decide)

/-- C10: a string whose last character is "/" resolves to the empty resource
identifier, and with a non-empty allowlist the service filter passes for it
iff the empty string is itself a member of the allowlist. -/
theorem C10_trailing_slash (s : String) (c : Config)
    (hs : s.data.getLast? = some '/')
    (hne : c.monitoredServices ≠ []) :
    getResourceName s = "" ∧
    (serviceFilterPasses c (getResourceName s) = true ↔ "" ∈ c.monitoredServices) := by
  have h1 : (splitChar '/' s.data).getLast? = some [] :=
    splitChar_getLast_of_sep '/' s.data hs
  have hne2 : goSplit s '/' ≠ [] := by
    unfold goSplit
    simp [splitChar_ne_nil]
  have h2 : (goSplit s '/').getLast? = some (String.mk []) := by
    unfold goSplit
    rw [List.getLast?_map, h1]
    rfl
  have h0 : getResourceName s = "" := by
    unfold getResourceName
    rw [if_pos (List.length_pos.mpr hne2)]
    exact getD_last _ (String.mk []) s h2
  refine ⟨h0, ?_⟩
  rw [h0]
  have hl : (decide (c.monitoredServices.length > 0)) = true :=
    decide_eq_true (List.length_pos.mpr hne)
  unfold serviceFilterPasses
  rw [hl]
  simp only [Bool.true_and, Bool.not_not]
  exact contains_iff_mem _ _

/-- C10 (witness): the theorem applied to a service reference ending in "/"
and the allowlist `[""]`, for which the filter passes. -/
theorem C10_witness :
    getResourceName "arn:aws:ecs:us-east-1:123:service/" = "" ∧
    serviceFilterPasses emptyIdCfg
      (getResourceName "arn:aws:ecs:us-east-1:123:service/") = true :=
  have h := C10_trailing_slash "arn:aws:ecs:us-east-1:123:service/" emptyIdCfg
    (by decide) (by decide)
  ⟨h.1, h.2.mpr (by decide)⟩
